import Mathlib

/-!
Shallow embedding of the alertnow-lib-js client library (`src/index.ts`)
together with proofs about its send pipeline, payload templating and
configuration builder.

Modelling conventions:
* JavaScript strings are Lean `String`s (lists of unicode scalar values).
* JavaScript call-time values that may not be strings are modelled by `JSVal`.
* `String.prototype.replace` with a string pattern replaces only the first
  occurrence; it is modelled by `jsReplace` below, including the
  GetSubstitution expansion that JavaScript applies to the *replacement*
  string: a dollar before a second dollar collapses to one dollar, a dollar
  before an ampersand re-inserts the matched text, and a dollar before a
  backquote (respectively a single quote) inserts the portion of the
  subject before (respectively after) the match.  With a string pattern
  there are no capture groups, so every other dollar sequence stays
  literal, as in the ECMAScript specification.
* `JSON.stringify` is modelled by `jsonStringify` over `Json`, the type of
  JSON-representable values; `Record<string, any>` arguments are modelled as
  association lists of JSON-representable values.
* The fire-and-forget HTTP exchange is split in two pure pieces: the
  synchronous part of `send` returns the list of error reports written to
  the console plus the list of HTTP requests issued, and the asynchronous
  continuation is a function from the `FetchResult` supplied by the network
  to the list of error reports that the background task logs.  The caller of
  `send` only ever sees the synchronous part, which is a total function.
-/

/-- The backquote character, `$`-escape `\x60`, written via its code point
to keep it out of the source text. -/
def backquoteChar : Char := Char.ofNat 96

/-- The single-quote character, code point `\x27`. -/
def singleQuoteChar : Char := Char.ofNat 39

/-- ECMAScript GetSubstitution restricted to a string pattern (no capture
groups): scan the replacement text and expand a dollar before a second
dollar to one dollar, a dollar before an ampersand to the matched text, a
dollar before a backquote to the subject portion before the match, and a
dollar before a single quote to the subject portion after the match; every
other character, including any other dollar sequence, stays literal. -/
def expandDollars (matched before after : List Char) : List Char → List Char
  | [] => []
  | [c] => [c]
  | c :: d :: rest =>
    if c = '$' then
      if d = '$' then '$' :: expandDollars matched before after rest
      else if d = '&' then matched ++ expandDollars matched before after rest
      else if d = backquoteChar then before ++ expandDollars matched before after rest
      else if d = singleQuoteChar then after ++ expandDollars matched before after rest
      else c :: expandDollars matched before after (d :: rest)
    else c :: expandDollars matched before after (d :: rest)

/-- Decidable check that a replacement text contains none of the special
dollar sequences, so GetSubstitution leaves it unchanged. -/
def noDollarSpecials : List Char → Bool
  | [] => true
  | [_] => true
  | c :: d :: rest =>
    if c = '$' then
      if d = '$' then false
      else if d = '&' then false
      else if d = backquoteChar then false
      else if d = singleQuoteChar then false
      else noDollarSpecials (d :: rest)
    else noDollarSpecials (d :: rest)

/-- Split a subject at the first occurrence of `pat`: `some (pre, post)`
with subject `= pre ++ pat ++ post` and the occurrence in `pre ++ pat`
leftmost, or `none` when `pat` does not occur.  (An empty pattern matches
at the start, as in JavaScript.) -/
def lsplitFirst (pat : List Char) : List Char → Option (List Char × List Char)
  | [] => if pat.isEmpty then some ([], []) else none
  | c :: cs =>
    if pat.isPrefixOf (c :: cs) then some ([], (c :: cs).drop pat.length)
    else (lsplitFirst pat cs).map fun pr => (c :: pr.1, pr.2)

/-- One step of JavaScript `String.prototype.replace` with a plain string
pattern, at the character-list level: replace the first occurrence of `pat`
in the subject by the GetSubstitution expansion of `repl` (with the match
context as before/after text), or return the subject unchanged when `pat`
does not occur. -/
def lReplaceFirst (pat repl subject : List Char) : List Char :=
  match lsplitFirst pat subject with
  | none => subject
  | some (pre, post) => pre ++ (expandDollars pat pre post repl ++ post)

/-- JavaScript `s.replace(pat, repl)` for string patterns (first occurrence
only), lifted to `String`. -/
def jsReplace (s pat repl : String) : String :=
  ⟨lReplaceFirst pat.data repl.data s.data⟩

/-- Whether a string is free of the special GetSubstitution dollar
sequences when used as a replacement text. -/
def strNoDollarSpecials (s : String) : Bool :=
  noDollarSpecials s.data

/-- Whether `pat` occurs as a contiguous substring of the subject list. -/
def lhasSub (pat : List Char) : List Char → Bool
  | [] => pat.isEmpty
  | c :: cs => pat.isPrefixOf (c :: cs) || lhasSub pat cs

/-- Whether `pat` occurs as a contiguous substring of `s`. -/
def strContains (s pat : String) : Bool :=
  lhasSub pat.data s.data

/-- ASCII lower-casing of one character, the fragment of JavaScript
`String.prototype.toLowerCase` relevant to the platform identifiers the
library compares against (`"discord"` is ASCII). -/
def jsCharLower (c : Char) : Char :=
  if 'A' ≤ c ∧ c ≤ 'Z' then Char.ofNat (c.toNat + 32) else c

/-- JavaScript `s.toLowerCase()` restricted to the ASCII case mapping. -/
def jsToLower (s : String) : String :=
  ⟨s.data.map jsCharLower⟩

/-- JSON-representable values, the model of the `any`-typed values that a
caller can place in the optional `data` record.  (Values such as functions
or `undefined`, which `JSON.stringify` drops, are outside the model.)
Numbers are modelled as integers. -/
inductive Json where
  | str (s : String)
  | num (n : Int)
  | bool (b : Bool)
  | null
  | arr (elems : List Json)
  | obj (fields : List (String × Json))

/-- One hexadecimal digit, lower case, for JSON control-character escapes. -/
def hexDigit (n : Nat) : Char :=
  if n < 10 then Char.ofNat (48 + n) else Char.ofNat (87 + n)

/-- Four hexadecimal digits, for JSON `\uXXXX` escapes. -/
def hex4 (n : Nat) : String :=
  ⟨[hexDigit (n / 4096 % 16), hexDigit (n / 256 % 16), hexDigit (n / 16 % 16), hexDigit (n % 16)]⟩

/-- The escape sequence that `JSON.stringify` emits for one character of a
string value. -/
def jsonEscapeChar (c : Char) : String :=
  if c = '"' then "\\\""
  else if c = '\\' then "\\\\"
  else if c = '\x08' then "\\b"
  else if c = '\x0c' then "\\f"
  else if c = '\n' then "\\n"
  else if c = '\r' then "\\r"
  else if c = '\t' then "\\t"
  else if c.toNat < 32 then "\\u" ++ hex4 c.toNat
  else String.singleton c

/-- A JSON string literal: the argument, escaped and double-quoted. -/
def jsonQuote (s : String) : String :=
  "\"" ++ String.join (s.data.map jsonEscapeChar) ++ "\""

mutual

/-- Model of `JSON.stringify` on JSON-representable values. -/
def jsonStringify : Json → String
  | .str s => jsonQuote s
  | .num n => toString n
  | .bool b => cond b "true" "false"
  | .null => "null"
  | .arr xs => "[" ++ String.intercalate "," (jsonStringifyList xs) ++ "]"
  | .obj fs => "\x7b" ++ String.intercalate "," (jsonStringifyFields fs) ++ "\x7d"

/-- Serialized forms of the elements of a JSON array. -/
def jsonStringifyList : List Json → List String
  | [] => []
  | x :: xs => jsonStringify x :: jsonStringifyList xs

/-- Serialized `"key":value` members of a JSON object. -/
def jsonStringifyFields : List (String × Json) → List String
  | [] => []
  | (k, v) :: fs => (jsonQuote k ++ ":" ++ jsonStringify v) :: jsonStringifyFields fs

end

/-- JavaScript values that can arrive in the string-typed positions of the
public API (`title`, `message`, `driver`, `webhookUrl`) when the caller
ignores the TypeScript annotations. -/
inductive JSVal where
  | vstr (s : String)
  | vnum (n : Int)
  | vbool (b : Bool)
  | vnull
  | vundef
deriving DecidableEq

/-- JavaScript truthiness of a `JSVal` (`""`, `0`, `false`, `null` and
`undefined` are falsy). -/
def JSVal.truthy : JSVal → Bool
  | .vstr s => s ≠ ""
  | .vnum n => n ≠ 0
  | .vbool b => b
  | .vnull => false
  | .vundef => false

/-- JavaScript `typeof v === 'string'`. -/
def JSVal.isString : JSVal → Bool
  | .vstr _ => true
  | _ => false

/-- The underlying string of a `JSVal`; meaningful only under an
`isString` guard, which is how the source uses the value. -/
def JSVal.asString : JSVal → String
  | .vstr s => s
  | _ => ""

/-- The `data` argument of `send`: omitted (JavaScript `undefined`, which
triggers the `data = {}` default), explicit `null` (which does not), or an
object literal modelled as an association list. -/
inductive DataArg where
  | undef
  | null
  | obj (entries : List (String × Json))

/-- Application of the `data = {}` default parameter: an omitted argument
(JavaScript `undefined`) becomes the empty object; `null` and explicit
objects pass through unchanged. -/
def normalizeData : DataArg → DataArg
  | .undef => .obj []
  | x => x

/-- An HTTP request as assembled by `_sendDiscord`'s call to `fetch`. -/
structure Request where
  url : String
  method : String
  contentType : String
  body : String
deriving DecidableEq

/-- The fixed Discord message template (`DEF_TEMPLATE` in `src/index.ts`). -/
def DEF_TEMPLATE : String := "**$title**\n\nmessage:```\n\n$message```\n$data\n"

/-- The `dataStr` computation at the top of `_sendDiscord`: the serialized
data block when `data` is non-null and has at least one key, otherwise the
empty string. -/
def discordDataStr : DataArg → String
  | .null => ""
  | .undef => ""
  | .obj entries =>
    if entries.length > 0 then "data:```\n\n" ++ jsonStringify (Json.obj entries) ++ "```\n"
    else ""

/-- The `content` string assembled by `_sendDiscord`: three sequential
first-occurrence replacements into `DEF_TEMPLATE`, exactly as in
`DEF_TEMPLATE.replace("$title", title).replace("$message", message).replace("$data", dataStr)`. -/
def renderDiscordContent (title message dataStr : String) : String :=
  jsReplace (jsReplace (jsReplace DEF_TEMPLATE "$title" title) "$message" message) "$data" dataStr

/-- The `fetch` call issued by `_sendDiscord`: a POST to the configured
webhook URL whose body is `JSON.stringify({ content })`. -/
def mkDiscordRequest (url title message : String) (data : DataArg) : Request :=
  { url := url
    method := "POST"
    contentType := "application/json"
    body := jsonStringify (Json.obj [("content", Json.str (renderDiscordContent title message (discordDataStr data)))]) }

/-- The configured sender (`class AlertNow`): the two nullable fields as
declared in the source. -/
structure AlertNow where
  driver : Option String
  webhookUrl : Option String
deriving DecidableEq

/-- The public `AlertNow` constructor, which stores both arguments. -/
def AlertNow.make (driver webhookUrl : String) : AlertNow :=
  ⟨some driver, some webhookUrl⟩

/-- JavaScript truthiness of a nullable string field (`null` and `""` are
falsy). -/
def jsStrOptTruthy : Option String → Bool
  | none => false
  | some s => s ≠ ""

/-- The synchronous body of `AlertNow.send`: returns the pair of
(console error reports emitted, HTTP requests dispatched).  The function is
total, which models that `send` never throws; notice that the result does
not depend on anything the network later does. -/
def AlertNow.send (a : AlertNow) (title message : JSVal) (data : DataArg) :
    List String × List Request :=
  if !jsStrOptTruthy a.driver || !jsStrOptTruthy a.webhookUrl then
    (["AlertNow instance not properly configured. Use setDriver(), setWebhook(), and build() before sending."], [])
  else if !title.truthy || !title.isString then
    (["AlertNow Error: Title is required and must be a string"], [])
  else if !message.truthy || !message.isString then
    (["AlertNow Error: Message is required and must be a string"], [])
  else if a.driver == some "discord" then
    ([], [mkDiscordRequest (a.webhookUrl.getD "") title.asString message.asString (normalizeData data)])
  else
    ([], [])

/-- What the network hands back to the background task: either an HTTP
response (status plus body text) or a transport failure. -/
inductive FetchResult where
  | response (status : Nat) (bodyText : String)
  | networkError (msg : String)

/-- The `response.ok` predicate of the fetch API: status in [200, 300). -/
def fetchOk (status : Nat) : Bool :=
  200 ≤ status && status < 300

/-- The error reports that the asynchronous continuation of a dispatched
`send` writes to the console, as a function of the network's answer:
on a non-2xx response `_sendDiscord` throws
`Discord API error: <status> - <responseText>`, its `catch` logs
`Failed to send notification to Discord:` and rethrows, and the `.catch`
installed by `send` logs `AlertNow Error:`.  Nothing is ever re-raised past
that final `.catch`, so no value here reaches the caller of `send`. -/
def discordDispatchErrors : FetchResult → List String
  | .response status text =>
    if fetchOk status then []
    else
      ["Failed to send notification to Discord: " ++ ("Discord API error: " ++ toString status ++ " - " ++ text),
       "AlertNow Error: " ++ ("Discord API error: " ++ toString status ++ " - " ++ text)]
  | .networkError msg =>
    ["Failed to send notification to Discord: " ++ msg,
     "AlertNow Error: " ++ msg]

/-- The configuration builder (`class AlertNowBuilder`). -/
structure AlertNowBuilder where
  driver : Option String
  webhookUrl : Option String
deriving DecidableEq

/-- A freshly constructed builder: both fields `null`. -/
def newAlertNowBuilder : AlertNowBuilder :=
  ⟨none, none⟩

/-- `AlertNowBuilder.setDriver`: validates and lower-cases the driver.
`Except.error` models the thrown exception; both throws happen before the
assignment to `this.driver`, so on error the builder is unchanged, which the
functional reading (the caller keeps its old value) captures. -/
def AlertNowBuilder.setDriver (b : AlertNowBuilder) (driver : JSVal) :
    Except String AlertNowBuilder :=
  if !driver.truthy || !driver.isString then
    Except.error "Driver must be a valid string"
  else if jsToLower driver.asString ≠ "discord" then
    Except.error "Currently only \"discord\" driver is supported"
  else
    Except.ok { b with driver := some (jsToLower driver.asString) }

/-- `AlertNowBuilder.setWebhook`: requires a truthy string and stores it. -/
def AlertNowBuilder.setWebhook (b : AlertNowBuilder) (webhookUrl : JSVal) :
    Except String AlertNowBuilder :=
  if !webhookUrl.truthy || !webhookUrl.isString then
    Except.error "A valid webhook URL is required"
  else
    Except.ok { b with webhookUrl := some webhookUrl.asString }

/-- `AlertNowBuilder.build`: requires both fields truthy and returns a new
`AlertNow` wrapping them. -/
def AlertNowBuilder.build (b : AlertNowBuilder) : Except String AlertNow :=
  if !jsStrOptTruthy b.driver then
    Except.error "Driver must be set before building"
  else if !jsStrOptTruthy b.webhookUrl then
    Except.error "Webhook URL must be set before building"
  else
    Except.ok (AlertNow.make (b.driver.getD "") (b.webhookUrl.getD ""))

/-- The fluent chain `b.setDriver(p).setWebhook(e).build()`, propagating the
first thrown exception. -/
def AlertNowBuilder.chainBuild (b : AlertNowBuilder) (p e : JSVal) :
    Except String AlertNow :=
  match b.setDriver p with
  | .error msg => .error msg
  | .ok b₁ =>
    match b₁.setWebhook e with
    | .error msg => .error msg
    | .ok b₂ => b₂.build

/-- Builder states reachable through the public API: a fresh builder
followed by any sequence of successful setter calls.  (Failed setter calls
throw before mutating, so they do not change the state.) -/
inductive ReachableBuilder : AlertNowBuilder → Prop where
  | init : ReachableBuilder newAlertNowBuilder
  | driverStep (b b' : AlertNowBuilder) (v : JSVal) :
      ReachableBuilder b → b.setDriver v = Except.ok b' → ReachableBuilder b'
  | webhookStep (b b' : AlertNowBuilder) (v : JSVal) :
      ReachableBuilder b → b.setWebhook v = Except.ok b' → ReachableBuilder b'

/-- Whether a call-time value is a valid platform identifier: a truthy
string whose lower-casing is exactly `"discord"`. -/
def validPlatform (v : JSVal) : Bool :=
  v.truthy && v.isString && (jsToLower v.asString == "discord")

/-- The builder state a JavaScript caller observes after a `setDriver` call:
the updated builder on success, the old builder when the call throws
(both throws in the source happen before the field assignment). -/
def AlertNowBuilder.setDriverState (b : AlertNowBuilder) (v : JSVal) : AlertNowBuilder :=
  match b.setDriver v with
  | .ok b' => b'
  | .error _ => b

/-- Decidable check that no nonempty proper prefix of `pat` is a suffix of
`xs`: then no occurrence of `pat` in `xs ++ ys` can start inside `xs` and
continue into `ys`.  Used with concrete `pat` and `xs`. -/
def noTailOverlap (pat xs : List Char) : Bool :=
  (List.range pat.length).all fun k => k == 0 || !((pat.take k).isSuffixOf xs)

/-- Decidable check that no nonempty proper suffix of `pat` is a prefix of
`ys`, witnessed inside `ys` itself (so it holds for any extension of `ys`):
then no occurrence of `pat` in `xs ++ ys ++ rest` can start inside `xs`.
Used with concrete `pat` and `ys`. -/
def noHeadMatchShort (pat ys : List Char) : Bool :=
  (List.range pat.length).all fun k =>
    k == 0 || (!((pat.drop k).isPrefixOf ys) && decide ((pat.drop k).length ≤ ys.length))

/-- Slot-wise rendering of the fixed template, written from the words of the
specification (§4.2): a bolded title line, a blank line, the `message:`
label with the fenced message block, then the data segment.  This is the
independent-substitution reading that claim C9 contrasts with the
sequential-replacement rendering actually performed by the code. -/
def slotwiseRender (title message dataStr : String) : String :=
  "**" ++ title ++ "**\n\nmessage:```\n\n" ++ message ++ "```\n" ++ dataStr ++ "\n"

/-! ### Lemmas about GetSubstitution and first-occurrence splitting -/

/-- A replacement text without special dollar sequences is expanded to
itself by GetSubstitution. -/
theorem expandDollars_eq_self (matched before after : List Char) :
    ∀ l, noDollarSpecials l = true → expandDollars matched before after l = l := by
  have key : ∀ (n : Nat) (l : List Char), l.length ≤ n → noDollarSpecials l = true →
      expandDollars matched before after l = l := by
    intro n
    induction n with
    | zero =>
      intro l hl _
      have hnil : l = [] := List.length_eq_zero.mp (Nat.le_zero.mp hl)
      subst hnil
      rfl
    | succ n ih =>
      intro l hl h
      match l with
      | [] => rfl
      | [c] => rfl
      | c :: d :: rest =>
        have hlen : (d :: rest).length ≤ n := by
          simp only [List.length_cons] at hl ⊢
          omega
        by_cases hc : c = '$'
        · subst hc
          by_cases hd1 : d = '$'
          · simp [noDollarSpecials, hd1] at h
          · by_cases hd2 : d = '&'
            · simp [noDollarSpecials, hd1, hd2] at h
            · by_cases hd3 : d = backquoteChar
              · simp [noDollarSpecials, hd1, hd2, hd3] at h
              · by_cases hd4 : d = singleQuoteChar
                · simp [noDollarSpecials, hd1, hd2, hd3, hd4] at h
                · have h' : noDollarSpecials (d :: rest) = true := by
                    simpa [noDollarSpecials, hd1, hd2, hd3, hd4] using h
                  simp only [expandDollars, if_neg hd1, if_neg hd2, if_neg hd3, if_neg hd4]
                  simp [ih (d :: rest) hlen h']
        · have h' : noDollarSpecials (d :: rest) = true := by
            simpa [noDollarSpecials, hc] using h
          simp only [expandDollars, if_neg hc]
          simp [ih (d :: rest) hlen h']
  intro l h
  exact key l.length l le_rfl h

/-- Splitting when the pattern is a prefix of the subject. -/
theorem lsf_of_isPrefixOf (pat l : List Char) (h : pat.isPrefixOf l = true) :
    lsplitFirst pat l = some ([], l.drop pat.length) := by
  cases l with
  | nil =>
    have hp : pat = [] := List.prefix_nil.mp (List.isPrefixOf_iff_prefix.mp h)
    simp [lsplitFirst, hp]
  | cons c cs => simp [lsplitFirst, h]

/-- Splitting at a pattern sitting at the head of the subject. -/
theorem lsf_here (pat rest : List Char) :
    lsplitFirst pat (pat ++ rest) = some ([], rest) := by
  rw [lsf_of_isPrefixOf pat (pat ++ rest)
    (List.isPrefixOf_iff_prefix.mpr (List.prefix_append pat rest)), List.drop_left]

/-- A head character that does not start a match is carried into the
prefix part of the split. -/
theorem lsf_cons_of_neg (pat : List Char) (c : Char) (l : List Char)
    (h : pat.isPrefixOf (c :: l) = false) :
    lsplitFirst pat (c :: l) = (lsplitFirst pat l).map fun pr => (c :: pr.1, pr.2) := by
  simp [lsplitFirst, h]

/-- A pattern that occurs in a list is at most as long as the list. -/
theorem lhasSub_length_le (pat : List Char) :
    ∀ l, lhasSub pat l = true → pat.length ≤ l.length := by
  intro l
  induction l with
  | nil =>
    intro h
    have hp : pat = [] := by simpa [lhasSub] using h
    simp [hp]
  | cons c cs ih =>
    intro h
    rcases (by simpa [lhasSub] using h : pat <+: (c :: cs) ∨ lhasSub pat cs = true) with hp | hs
    · exact hp.length_le
    · exact le_trans (ih hs) (by simp)

/-- If the pattern occurs in the left part of a concatenation, the split of
the concatenation is the split of the left part with the right part
appended to the postfix. -/
theorem lsf_append_of_sub_left (pat : List Char) :
    ∀ xs, lhasSub pat xs = true →
      ∀ ys, lsplitFirst pat (xs ++ ys)
        = (lsplitFirst pat xs).map fun pr => (pr.1, pr.2 ++ ys) := by
  intro xs
  induction xs with
  | nil =>
    intro h ys
    have hp : pat = [] := by simpa [lhasSub] using h
    cases ys with
    | nil => simp [lsplitFirst, hp]
    | cons c cs => simp [lsplitFirst, hp, List.isPrefixOf]
  | cons c cs ih =>
    intro h ys
    by_cases hp : pat.isPrefixOf (c :: cs) = true
    · have hp' : pat.isPrefixOf ((c :: cs) ++ ys) = true :=
        List.isPrefixOf_iff_prefix.mpr
          ((List.isPrefixOf_iff_prefix.mp hp).trans (List.prefix_append (c :: cs) ys))
      rw [lsf_of_isPrefixOf pat ((c :: cs) ++ ys) hp', lsf_of_isPrefixOf pat (c :: cs) hp,
        List.drop_append_of_le_length (List.isPrefixOf_iff_prefix.mp hp).length_le]
      rfl
    · have hp0 : pat.isPrefixOf (c :: cs) = false := by
        cases hpe : pat.isPrefixOf (c :: cs) with
        | false => rfl
        | true => exact absurd hpe hp
      have hsub : lhasSub pat cs = true := by
        rcases (by simpa [lhasSub] using h : pat <+: (c :: cs) ∨ lhasSub pat cs = true) with hx | hx
        · exact absurd (List.isPrefixOf_iff_prefix.mpr hx) hp
        · exact hx
      have hlen : pat.length ≤ cs.length := lhasSub_length_le pat cs hsub
      have hp2 : pat.isPrefixOf ((c :: cs) ++ ys) = false := by
        cases hpe : pat.isPrefixOf ((c :: cs) ++ ys) with
        | false => rfl
        | true =>
          have hpre : pat <+: (c :: cs) :=
            List.prefix_of_prefix_length_le (List.isPrefixOf_iff_prefix.mp hpe)
              (List.prefix_append (c :: cs) ys) (le_trans hlen (by simp))
          exact absurd (List.isPrefixOf_iff_prefix.mpr hpre) (by simp [hp0])
      rw [List.cons_append] at hp2
      rw [List.cons_append, lsf_cons_of_neg pat c (cs ++ ys) hp2, ih hsub ys,
        lsf_cons_of_neg pat c cs hp0, Option.map_map, Option.map_map]
      rfl

/-- If the pattern does not occur inside the left part of a concatenation
and no occurrence can straddle the boundary, the split of the concatenation
is the split of the right part with the left part prepended to the prefix. -/
theorem lsf_append_skip (pat : List Char) :
    ∀ xs ys, lhasSub pat xs = false →
      (∀ k, 0 < k → k < pat.length →
        ((pat.take k).isSuffixOf xs && (pat.drop k).isPrefixOf ys) = false) →
      lsplitFirst pat (xs ++ ys) = (lsplitFirst pat ys).map fun pr => (xs ++ pr.1, pr.2) := by
  intro xs
  induction xs with
  | nil =>
    intro ys _ _
    cases hys : lsplitFirst pat ys <;> simp [hys]
  | cons c cs ih =>
    intro ys hx hs
    have hx' : pat.isPrefixOf (c :: cs) = false ∧ lhasSub pat cs = false := by
      have := hx
      simp only [lhasSub, Bool.or_eq_false_iff] at this
      exact this
    have hp2 : pat.isPrefixOf ((c :: cs) ++ ys) = false := by
      cases hpe : pat.isPrefixOf ((c :: cs) ++ ys) with
      | false => rfl
      | true =>
        exfalso
        have hpre : pat <+: (c :: cs) ++ ys := List.isPrefixOf_iff_prefix.mp hpe
        rcases Nat.lt_or_ge cs.length.succ pat.length with hlt | hge
        · have hccp : (c :: cs) <+: pat :=
            List.prefix_of_prefix_length_le (List.prefix_append (c :: cs) ys) hpre
              (le_of_lt hlt)
          have htake : pat.take (c :: cs).length = c :: cs :=
            (List.prefix_iff_eq_take.mp hccp).symm
          have hsuf : (pat.take (c :: cs).length).isSuffixOf (c :: cs) = true := by
            rw [htake]
            exact List.isSuffixOf_iff_suffix.mpr (List.suffix_refl _)
          have hdrop : (pat.drop (c :: cs).length).isPrefixOf ys = true := by
            obtain ⟨r, hr⟩ := hpre
            have hce : pat = (c :: cs) ++ pat.drop (c :: cs).length := by
              conv_lhs => rw [← List.take_append_drop (c :: cs).length pat]
              rw [htake]
            rw [hce, List.append_assoc] at hr
            have hys : pat.drop (c :: cs).length ++ r = ys := List.append_cancel_left hr
            exact List.isPrefixOf_iff_prefix.mpr ⟨r, hys⟩
          have := hs (c :: cs).length (by simp) hlt
          rw [hsuf, hdrop] at this
          simp at this
        · have hpre' : pat <+: (c :: cs) :=
            List.prefix_of_prefix_length_le hpre (List.prefix_append (c :: cs) ys) hge
          exact absurd (List.isPrefixOf_iff_prefix.mpr hpre') (by simp [hx'.1])
    have hs' : ∀ k, 0 < k → k < pat.length →
        ((pat.take k).isSuffixOf cs && (pat.drop k).isPrefixOf ys) = false := by
      intro k hk hkl
      cases hsc : (pat.take k).isSuffixOf cs with
      | false => simp [hsc]
      | true =>
        have h₁ : (pat.take k).isSuffixOf (c :: cs) = true :=
          List.isSuffixOf_iff_suffix.mpr
            ((List.isSuffixOf_iff_suffix.mp hsc).trans (List.suffix_cons c cs))
        have h₂ := hs k hk hkl
        rw [h₁, Bool.true_and] at h₂
        simp [h₂]
    rw [List.cons_append] at hp2
    rw [List.cons_append, lsf_cons_of_neg pat c (cs ++ ys) hp2, ih ys hx'.2 hs',
      Option.map_map]
    rfl

/-- Decomposition of the subject along its first-occurrence split. -/
theorem lsf_sub_decomp (pat : List Char) :
    ∀ l, lhasSub pat l = true →
      ∃ pre post, lsplitFirst pat l = some (pre, post) ∧ l = pre ++ (pat ++ post) := by
  intro l
  induction l with
  | nil =>
    intro h
    have hp : pat = [] := by simpa [lhasSub] using h
    exact ⟨[], [], by simp [lsplitFirst, hp], by simp [hp]⟩
  | cons c cs ih =>
    intro h
    by_cases hp : pat.isPrefixOf (c :: cs) = true
    · refine ⟨[], (c :: cs).drop pat.length, lsf_of_isPrefixOf pat (c :: cs) hp, ?_⟩
      have hpre : pat <+: (c :: cs) := List.isPrefixOf_iff_prefix.mp hp
      have htake : pat = (c :: cs).take pat.length := List.prefix_iff_eq_take.mp hpre
      have hdec : (c :: cs) = pat ++ (c :: cs).drop pat.length := by
        conv_lhs => rw [← List.take_append_drop pat.length (c :: cs)]
        rw [← htake]
      simpa using hdec
    · have hp0 : pat.isPrefixOf (c :: cs) = false := by
        cases hpe : pat.isPrefixOf (c :: cs) with
        | false => rfl
        | true => exact absurd hpe hp
      have hsub : lhasSub pat cs = true := by
        rcases (by simpa [lhasSub] using h : pat <+: (c :: cs) ∨ lhasSub pat cs = true) with hx | hx
        · exact absurd (List.isPrefixOf_iff_prefix.mpr hx) hp
        · exact hx
      obtain ⟨pre, post, hsp, hdec⟩ := ih hsub
      refine ⟨c :: pre, post, ?_, ?_⟩
      · rw [lsf_cons_of_neg pat c cs hp0, hsp]
        rfl
      · rw [List.cons_append, ← hdec]

/-- A short pattern that is not a prefix of a list is not a prefix of any
extension of it. -/
theorem isPrefixOf_short_append (p xs rest : List Char) (h : p.isPrefixOf xs = false)
    (hl : p.length ≤ xs.length) : p.isPrefixOf (xs ++ rest) = false := by
  cases hpe : p.isPrefixOf (xs ++ rest) with
  | false => rfl
  | true =>
    have hpre : p <+: xs :=
      List.prefix_of_prefix_length_le (List.isPrefixOf_iff_prefix.mp hpe)
        (List.prefix_append xs rest) hl
    exact absurd (List.isPrefixOf_iff_prefix.mpr hpre) (by simp [h])

/-- Unpacking the decidable tail-overlap check. -/
theorem noTailOverlap_imp (pat xs : List Char) (h : noTailOverlap pat xs = true) :
    ∀ k, 0 < k → k < pat.length → (pat.take k).isSuffixOf xs = false := by
  intro k hk hkl
  have h' := List.all_eq_true.mp h k (List.mem_range.mpr hkl)
  have hk0 : (k == 0) = false := beq_eq_false_iff_ne.mpr (Nat.pos_iff_ne_zero.mp hk)
  rw [hk0, Bool.false_or] at h'
  simpa using h'

/-- Unpacking the decidable head-match check: it rules the pattern suffix
out as a prefix of any extension of `ys`. -/
theorem noHeadMatchShort_imp (pat ys : List Char) (h : noHeadMatchShort pat ys = true) :
    ∀ rest k, 0 < k → k < pat.length → (pat.drop k).isPrefixOf (ys ++ rest) = false := by
  intro rest k hk hkl
  have h' := List.all_eq_true.mp h k (List.mem_range.mpr hkl)
  have hk0 : (k == 0) = false := beq_eq_false_iff_ne.mpr (Nat.pos_iff_ne_zero.mp hk)
  rw [hk0, Bool.false_or, Bool.and_eq_true] at h'
  exact isPrefixOf_short_append (pat.drop k) ys rest (by simpa using h'.1)
    (of_decide_eq_true h'.2)

/-- Skip a leading chunk of the subject (boundary overlap ruled out by the
check on the chunk itself). -/
theorem lsf_skip_tail (pat xs ys : List Char) (hx : lhasSub pat xs = false)
    (ht : noTailOverlap pat xs = true) :
    lsplitFirst pat (xs ++ ys) = (lsplitFirst pat ys).map fun pr => (xs ++ pr.1, pr.2) :=
  lsf_append_skip pat xs ys hx fun k hk hkl => by
    rw [noTailOverlap_imp pat xs ht k hk hkl, Bool.false_and]

/-- Skip a leading chunk of the subject (boundary overlap ruled out by the
check on the following concrete chunk). -/
theorem lsf_skip_head (pat xs ynext rest : List Char) (hx : lhasSub pat xs = false)
    (hh : noHeadMatchShort pat ynext = true) :
    lsplitFirst pat (xs ++ (ynext ++ rest))
      = (lsplitFirst pat (ynext ++ rest)).map fun pr => (xs ++ pr.1, pr.2) :=
  lsf_append_skip pat xs (ynext ++ rest) hx fun k hk hkl => by
    rw [noHeadMatchShort_imp pat ynext hh rest k hk hkl, Bool.and_false]

/-! ### String-level evaluation of `jsReplace` -/

/-- Data of a string concatenation. -/
theorem strData_append (a b : String) : (a ++ b).data = a.data ++ b.data := rfl

/-- Evaluating a replacement through a computed split of the subject: the
replacement text is expanded with the surrounding context, exactly as
GetSubstitution prescribes. -/
theorem jsReplace_of_split (s pat repl : String) (pre post : List Char)
    (h : lsplitFirst pat.data s.data = some (pre, post)) :
    (jsReplace s pat repl).data
      = pre ++ (expandDollars pat.data pre post repl.data ++ post) := by
  show lReplaceFirst pat.data repl.data s.data = _
  unfold lReplaceFirst
  rw [h]

/-! ### The three replacement passes over `DEF_TEMPLATE` -/

/-- First pass: `$title` is replaced by an expansion-free title, which
lands between the two bold markers; the rest of the template is untouched. -/
theorem discord_render_title_step (t : String) (hts : strNoDollarSpecials t = true) :
    jsReplace DEF_TEMPLATE "$title" t
      = "**" ++ (t ++ ("**\n\nmessage:```\n\n" ++ ("$message" ++ "```\n$data\n"))) := by
  apply String.ext
  rw [jsReplace_of_split DEF_TEMPLATE "$title" t "**".data
      ("**\n\nmessage:```\n\n" ++ ("$message" ++ "```\n$data\n")).data (by rfl),
    expandDollars_eq_self "$title".data "**".data
      ("**\n\nmessage:```\n\n" ++ ("$message" ++ "```\n$data\n")).data t.data hts]
  simp [strData_append]

/-- Second pass when the title does not contain `$message`: the template's
own `$message` placeholder is replaced by the expansion-free message. -/
theorem discord_render_message_step_clean (t m : String)
    (h1 : strContains t "$message" = false) (hms : strNoDollarSpecials m = true) :
    jsReplace ("**" ++ (t ++ ("**\n\nmessage:```\n\n" ++ ("$message" ++ "```\n$data\n"))))
        "$message" m
      = "**" ++ (t ++ ("**\n\nmessage:```\n\n" ++ (m ++ "```\n$data\n"))) := by
  have hsplit : lsplitFirst "$message".data
      ("**" ++ (t ++ ("**\n\nmessage:```\n\n" ++ ("$message" ++ "```\n$data\n")))).data
      = some (("**" ++ (t ++ "**\n\nmessage:```\n\n")).data, "```\n$data\n".data) := by
    rw [show ("**" ++ (t ++ ("**\n\nmessage:```\n\n" ++ ("$message" ++ "```\n$data\n")))).data
        = "**".data ++ (t.data ++ ("**\n\nmessage:```\n\n".data
            ++ ("$message".data ++ "```\n$data\n".data)))
      from by simp [strData_append]]
    rw [lsf_skip_tail "$message".data "**".data
        (t.data ++ ("**\n\nmessage:```\n\n".data ++ ("$message".data ++ "```\n$data\n".data)))
        (by decide) (by decide)]
    rw [lsf_skip_head "$message".data t.data "**\n\nmessage:```\n\n".data
        ("$message".data ++ "```\n$data\n".data) h1 (by decide)]
    rw [lsf_skip_tail "$message".data "**\n\nmessage:```\n\n".data
        ("$message".data ++ "```\n$data\n".data) (by decide) (by decide)]
    rw [lsf_here "$message".data "```\n$data\n".data]
    simp [strData_append, List.append_assoc]
  apply String.ext
  rw [jsReplace_of_split _ "$message" m _ _ hsplit,
    expandDollars_eq_self "$message".data _ _ m.data hms]
  simp [strData_append, List.append_assoc]

/-- Third pass when neither the title nor the message contains `$data`: the
template's own `$data` placeholder is replaced by the expansion-free data
segment. -/
theorem discord_render_data_step_clean (t m ds : String)
    (h2 : strContains t "$data" = false) (h3 : strContains m "$data" = false)
    (hds : strNoDollarSpecials ds = true) :
    jsReplace ("**" ++ (t ++ ("**\n\nmessage:```\n\n" ++ (m ++ "```\n$data\n")))) "$data" ds
      = "**" ++ (t ++ ("**\n\nmessage:```\n\n" ++ (m ++ ("```\n" ++ (ds ++ "\n"))))) := by
  have hsplit : lsplitFirst "$data".data
      ("**" ++ (t ++ ("**\n\nmessage:```\n\n" ++ (m ++ "```\n$data\n")))).data
      = some (("**" ++ (t ++ ("**\n\nmessage:```\n\n" ++ (m ++ "```\n")))).data, "\n".data) := by
    rw [show ("**" ++ (t ++ ("**\n\nmessage:```\n\n" ++ (m ++ "```\n$data\n")))).data
        = "**".data ++ (t.data ++ ("**\n\nmessage:```\n\n".data
            ++ (m.data ++ ("```\n".data ++ ("$data".data ++ "\n".data)))))
      from by
        rw [show ("```\n$data\n" : String) = "```\n" ++ ("$data" ++ "\n") from rfl]
        simp [strData_append]]
    rw [lsf_skip_tail "$data".data "**".data
        (t.data ++ ("**\n\nmessage:```\n\n".data
          ++ (m.data ++ ("```\n".data ++ ("$data".data ++ "\n".data)))))
        (by decide) (by decide)]
    rw [lsf_skip_head "$data".data t.data "**\n\nmessage:```\n\n".data
        (m.data ++ ("```\n".data ++ ("$data".data ++ "\n".data))) h2 (by decide)]
    rw [lsf_skip_tail "$data".data "**\n\nmessage:```\n\n".data
        (m.data ++ ("```\n".data ++ ("$data".data ++ "\n".data))) (by decide) (by decide)]
    rw [lsf_skip_head "$data".data m.data "```\n".data
        ("$data".data ++ "\n".data) h3 (by decide)]
    rw [lsf_skip_tail "$data".data "```\n".data
        ("$data".data ++ "\n".data) (by decide) (by decide)]
    rw [lsf_here "$data".data "\n".data]
    simp [strData_append, List.append_assoc]
  apply String.ext
  rw [jsReplace_of_split _ "$data" ds _ _ hsplit,
    expandDollars_eq_self "$data".data _ _ ds.data hds]
  simp [strData_append, List.append_assoc]

/-- For titles and messages free of placeholders and of replacement
patterns, and an expansion-free data segment, the sequential rendering
agrees with slot-wise substitution into the template. -/
theorem render_eq_slotwise (t m ds : String) (h1 : strContains t "$message" = false)
    (h2 : strContains t "$data" = false) (h3 : strContains m "$data" = false)
    (hts : strNoDollarSpecials t = true) (hms : strNoDollarSpecials m = true)
    (hds : strNoDollarSpecials ds = true) :
    renderDiscordContent t m ds = slotwiseRender t m ds := by
  unfold renderDiscordContent
  rw [discord_render_title_step t hts, discord_render_message_step_clean t m h1 hms,
    discord_render_data_step_clean t m ds h2 h3 hds]
  unfold slotwiseRender
  apply String.ext
  simp [strData_append, List.append_assoc]

/-- Second pass when the title does contain `$message`: the expansion-free
message is substituted into that occurrence inside the title, and the
template's own `$message` placeholder survives verbatim. -/
theorem discord_render_message_step_sub (t m : String)
    (h : strContains t "$message" = true) (hms : strNoDollarSpecials m = true) :
    jsReplace ("**" ++ (t ++ ("**\n\nmessage:```\n\n" ++ ("$message" ++ "```\n$data\n"))))
        "$message" m
      = "**" ++ (jsReplace t "$message" m
          ++ ("**\n\nmessage:```\n\n" ++ ("$message" ++ "```\n$data\n"))) := by
  obtain ⟨pre, post, hsp, hdec⟩ := lsf_sub_decomp "$message".data t.data h
  have hsplit : lsplitFirst "$message".data
      ("**" ++ (t ++ ("**\n\nmessage:```\n\n" ++ ("$message" ++ "```\n$data\n")))).data
      = some ("**".data ++ pre,
          post ++ ("**\n\nmessage:```\n\n" ++ ("$message" ++ "```\n$data\n")).data) := by
    rw [show ("**" ++ (t ++ ("**\n\nmessage:```\n\n" ++ ("$message" ++ "```\n$data\n")))).data
        = "**".data ++ (t.data
            ++ ("**\n\nmessage:```\n\n" ++ ("$message" ++ "```\n$data\n")).data)
      from by simp [strData_append]]
    rw [lsf_skip_tail "$message".data "**".data
        (t.data ++ ("**\n\nmessage:```\n\n" ++ ("$message" ++ "```\n$data\n")).data)
        (by decide) (by decide)]
    rw [lsf_append_of_sub_left "$message".data t.data h
        ("**\n\nmessage:```\n\n" ++ ("$message" ++ "```\n$data\n")).data]
    rw [hsp]
    rfl
  have htr : (jsReplace t "$message" m).data = pre ++ (m.data ++ post) := by
    rw [jsReplace_of_split t "$message" m pre post hsp,
      expandDollars_eq_self "$message".data pre post m.data hms]
  apply String.ext
  rw [jsReplace_of_split _ "$message" m _ _ hsplit,
    expandDollars_eq_self "$message".data _ _ m.data hms]
  simp [strData_append, htr, List.append_assoc]

/-- Full rendering when the title contains `$data` (but not `$message`) and
the message does not contain `$data`: the expansion-free data segment is
substituted into the title's occurrence and the template's own `$data`
placeholder stays. -/
theorem discord_render_data_in_title (t m ds : String)
    (h1 : strContains t "$message" = false) (hd : strContains t "$data" = true)
    (hts : strNoDollarSpecials t = true) (hms : strNoDollarSpecials m = true)
    (hds : strNoDollarSpecials ds = true) :
    renderDiscordContent t m ds
      = "**" ++ (jsReplace t "$data" ds
          ++ ("**\n\nmessage:```\n\n" ++ (m ++ "```\n$data\n"))) := by
  unfold renderDiscordContent
  rw [discord_render_title_step t hts, discord_render_message_step_clean t m h1 hms]
  obtain ⟨pre, post, hsp, hdec⟩ := lsf_sub_decomp "$data".data t.data hd
  have hsplit : lsplitFirst "$data".data
      ("**" ++ (t ++ ("**\n\nmessage:```\n\n" ++ (m ++ "```\n$data\n")))).data
      = some ("**".data ++ pre,
          post ++ ("**\n\nmessage:```\n\n" ++ (m ++ "```\n$data\n")).data) := by
    rw [show ("**" ++ (t ++ ("**\n\nmessage:```\n\n" ++ (m ++ "```\n$data\n")))).data
        = "**".data ++ (t.data ++ ("**\n\nmessage:```\n\n" ++ (m ++ "```\n$data\n")).data)
      from by simp [strData_append]]
    rw [lsf_skip_tail "$data".data "**".data
        (t.data ++ ("**\n\nmessage:```\n\n" ++ (m ++ "```\n$data\n")).data)
        (by decide) (by decide)]
    rw [lsf_append_of_sub_left "$data".data t.data hd
        ("**\n\nmessage:```\n\n" ++ (m ++ "```\n$data\n")).data]
    rw [hsp]
    rfl
  have htr : (jsReplace t "$data" ds).data = pre ++ (ds.data ++ post) := by
    rw [jsReplace_of_split t "$data" ds pre post hsp,
      expandDollars_eq_self "$data".data pre post ds.data hds]
  apply String.ext
  rw [jsReplace_of_split _ "$data" ds _ _ hsplit,
    expandDollars_eq_self "$data".data _ _ ds.data hds]
  simp [strData_append, htr, List.append_assoc]

/-! ### Evaluation of the send pipeline -/

/-- A correctly configured Discord sender with valid arguments reaches the
dispatch branch: no error is reported and exactly one request is issued. -/
theorem send_discord_eq (u t m : String) (hu : u ≠ "") (ht : t ≠ "") (hm : m ≠ "")
    (d : DataArg) :
    (AlertNow.make "discord" u).send (.vstr t) (.vstr m) d
      = ([], [mkDiscordRequest u t m (normalizeData d)]) := by
  unfold AlertNow.send AlertNow.make
  simp [jsStrOptTruthy, JSVal.truthy, JSVal.isString, JSVal.asString, hu, ht, hm]

/-! ### Builder invariants -/

/-- Any builder reachable through the public API has either an unset driver
or the normalized driver `"discord"`, and either an unset webhook URL or a
non-empty one. -/
theorem reachable_builder_fields {b : AlertNowBuilder} (h : ReachableBuilder b) :
    (b.driver = none ∨ b.driver = some "discord") ∧
    (b.webhookUrl = none ∨ ∃ u, u ≠ "" ∧ b.webhookUrl = some u) := by
  induction h with
  | init => simp [newAlertNowBuilder]
  | driverStep b b' v hr hok ih =>
    unfold AlertNowBuilder.setDriver at hok
    split at hok
    · exact absurd hok (by simp)
    · split at hok
      · exact absurd hok (by simp)
      · rename_i hg1 hg2
        have hd : jsToLower v.asString = "discord" := not_not.mp hg2
        have hb' : b' = { b with driver := some (jsToLower v.asString) } := by
          injection hok with h'
          exact h'.symm
        subst hb'
        exact ⟨Or.inr (by simp [hd]), ih.2⟩
  | webhookStep b b' v hr hok ih =>
    unfold AlertNowBuilder.setWebhook at hok
    split at hok
    · exact absurd hok (by simp)
    · rename_i hg1
      have hb' : b' = { b with webhookUrl := some v.asString } := by
        injection hok with h'
        exact h'.symm
      have hv : v.truthy = true ∧ v.isString = true := by
        have := hg1
        simp only [Bool.or_eq_true, Bool.not_eq_true', not_or, Bool.not_eq_false] at this
        exact this
      have hne : v.asString ≠ "" := by
        cases v <;> simp_all [JSVal.truthy, JSVal.isString, JSVal.asString]
      subst hb'
      exact ⟨ih.1, Or.inr ⟨v.asString, hne, rfl⟩⟩

/-- A successful `build` presupposes truthy fields and copies them into the
sender. -/
theorem build_ok_fields {b : AlertNowBuilder} {a : AlertNow} (h : b.build = .ok a) :
    (∃ dr, dr ≠ "" ∧ b.driver = some dr ∧ a.driver = some dr) ∧
    (∃ u, u ≠ "" ∧ b.webhookUrl = some u ∧ a.webhookUrl = some u) := by
  unfold AlertNowBuilder.build at h
  split at h
  · exact absurd h (by simp)
  · split at h
    · exact absurd h (by simp)
    · rename_i hg1 hg2
      have hd : jsStrOptTruthy b.driver = true := by
        simpa using hg1
      have hu : jsStrOptTruthy b.webhookUrl = true := by
        simpa using hg2
      have ha : a = AlertNow.make (b.driver.getD "") (b.webhookUrl.getD "") := by
        injection h with h'
        exact h'.symm
      cases hbd : b.driver with
      | none => rw [hbd] at hd; simp [jsStrOptTruthy] at hd
      | some dr =>
        cases hbu : b.webhookUrl with
        | none => rw [hbu] at hu; simp [jsStrOptTruthy] at hu
        | some u =>
          rw [hbd] at hd
          rw [hbu] at hu
          have hdr : dr ≠ "" := by simpa [jsStrOptTruthy] using hd
          have hur : u ≠ "" := by simpa [jsStrOptTruthy] using hu
          subst ha
          rw [hbd, hbu]
          simp [AlertNow.make, hdr, hur]

/-! ### Claim theorems -/

/-- C1 (counterexample): for the non-empty title `"$data"` and message
`"M"`, `send` issues its single POST, but the body's `content` field is not
the fixed template rendered with an empty data segment: the sequential
replacement deletes the title text and leaves a literal `$data` behind. -/
theorem c1_counterexample :
    (AlertNow.make "discord" "https://discord.example/webhook").send
        (.vstr "$data") (.vstr "M") DataArg.undef
      = ([], [{ url := "https://discord.example/webhook", method := "POST",
                contentType := "application/json",
                body := jsonStringify (Json.obj [("content",
                  Json.str "****\n\nmessage:```\n\nM```\n$data\n")]) }]) ∧
    "****\n\nmessage:```\n\nM```\n$data\n" ≠ slotwiseRender "$data" "M" "" := by
  constructor
  · decide
  · decide

/-- C1 (amended): for every Discord sender and non-empty title and message
that contain neither the template placeholders (`$message` or `$data` in
the title, `$data` in the message) nor the JavaScript replacement patterns
(a dollar followed by a dollar, ampersand, backquote or single quote), a
`send` with no data issues exactly one POST to the configured endpoint with
content type `application/json`, whose body is the JSON object with the
single field `content` holding the fixed template rendered with an empty
data segment. -/
theorem c1_single_post_template (u t m : String) (hu : u ≠ "") (ht : t ≠ "") (hm : m ≠ "")
    (h1 : strContains t "$message" = false) (h2 : strContains t "$data" = false)
    (h3 : strContains m "$data" = false)
    (h4 : strNoDollarSpecials t = true) (h5 : strNoDollarSpecials m = true) :
    (AlertNow.make "discord" u).send (.vstr t) (.vstr m) DataArg.undef
      = ([], [{ url := u, method := "POST", contentType := "application/json",
                body := jsonStringify (Json.obj [("content",
                  Json.str (slotwiseRender t m ""))]) }]) := by
  rw [send_discord_eq u t m hu ht hm DataArg.undef]
  simp only [normalizeData]
  unfold mkDiscordRequest
  rw [show discordDataStr (DataArg.obj []) = "" from rfl,
    render_eq_slotwise t m "" h1 h2 h3 h4 h5 (by decide)]

/-- Witness for C1 (amended) at concrete inputs. -/
theorem c1_witness :
    (AlertNow.make "discord" "https://discord.example/webhook").send
        (.vstr "Deploy failed") (.vstr "build 17 broke") DataArg.undef
      = ([], [{ url := "https://discord.example/webhook", method := "POST",
                contentType := "application/json",
                body := jsonStringify (Json.obj [("content",
                  Json.str (slotwiseRender "Deploy failed" "build 17 broke" ""))]) }]) :=
  c1_single_post_template "https://discord.example/webhook" "Deploy failed" "build 17 broke"
    (by decide) (by decide) (by decide) (by decide) (by decide) (by decide)
    (by decide) (by decide)

/-- C2: for every sender and every call whose title or message is invalid
(falsy or not a string), `send` dispatches no HTTP request, returns the
error-report list (it is a total function, so it cannot throw), and that
list is non-empty. -/
theorem c2_invalid_args (a : AlertNow) (title message : JSVal) (data : DataArg)
    (h : (title.truthy && title.isString) = false
      ∨ (message.truthy && message.isString) = false) :
    (a.send title message data).2 = [] ∧ (a.send title message data).1 ≠ [] := by
  unfold AlertNow.send
  by_cases hc : (!jsStrOptTruthy a.driver || !jsStrOptTruthy a.webhookUrl) = true
  · rw [if_pos hc]
    exact ⟨rfl, by simp⟩
  · rw [if_neg hc]
    by_cases hti : (!title.truthy || !title.isString) = true
    · rw [if_pos hti]
      exact ⟨rfl, by simp⟩
    · have htv : title.truthy = true ∧ title.isString = true := by
        simpa [not_or] using hti
      have hmi : (!message.truthy || !message.isString) = true := by
        rcases h with h | h
        · exact absurd h (by simp [htv.1, htv.2])
        · rcases Bool.and_eq_false_iff.mp h with h' | h' <;> simp [h']
      rw [if_neg hti, if_pos hmi]
      exact ⟨rfl, by simp⟩

/-- Witness for C2: an empty title. -/
theorem c2_witness :
    ((AlertNow.make "discord" "https://discord.example/webhook").send
        (.vstr "") (.vstr "msg") DataArg.undef).2 = [] ∧
    ((AlertNow.make "discord" "https://discord.example/webhook").send
        (.vstr "") (.vstr "msg") DataArg.undef).1 ≠ [] :=
  c2_invalid_args (AlertNow.make "discord" "https://discord.example/webhook")
    (.vstr "") (.vstr "msg") DataArg.undef (Or.inl (by decide))

/-- C3: a valid `send` on a Discord sender reports no synchronous error and
issues its one request — its return value does not depend on the HTTP
response at all — and when the response status is non-2xx the asynchronous
continuation reports, on the console side channel only, the two messages
carrying the HTTP status code and the response body text. -/
theorem c3_http_failure_side_channel (u t m : String) (d : DataArg)
    (hu : u ≠ "") (ht : t ≠ "") (hm : m ≠ "")
    (status : Nat) (text : String) (hbad : fetchOk status = false) :
    ((AlertNow.make "discord" u).send (.vstr t) (.vstr m) d).1 = [] ∧
    ((AlertNow.make "discord" u).send (.vstr t) (.vstr m) d).2
      = [mkDiscordRequest u t m (normalizeData d)] ∧
    discordDispatchErrors (.response status text)
      = ["Failed to send notification to Discord: "
            ++ ("Discord API error: " ++ toString status ++ " - " ++ text),
         "AlertNow Error: " ++ ("Discord API error: " ++ toString status ++ " - " ++ text)] := by
  refine ⟨?_, ?_, ?_⟩
  · rw [send_discord_eq u t m hu ht hm d]
  · rw [send_discord_eq u t m hu ht hm d]
  · simp [discordDispatchErrors, hbad]

/-- Witness for C3 at status 500. -/
theorem c3_witness :
    ((AlertNow.make "discord" "https://discord.example/webhook").send
        (.vstr "T") (.vstr "M") DataArg.undef).1 = [] ∧
    ((AlertNow.make "discord" "https://discord.example/webhook").send
        (.vstr "T") (.vstr "M") DataArg.undef).2
      = [mkDiscordRequest "https://discord.example/webhook" "T" "M"
          (normalizeData DataArg.undef)] ∧
    discordDispatchErrors (.response 500 "Internal Server Error")
      = ["Failed to send notification to Discord: "
            ++ ("Discord API error: " ++ toString 500 ++ " - " ++ "Internal Server Error"),
         "AlertNow Error: "
            ++ ("Discord API error: " ++ toString 500 ++ " - " ++ "Internal Server Error")] :=
  c3_http_failure_side_channel "https://discord.example/webhook" "T" "M" DataArg.undef
    (by decide) (by decide) (by decide) 500 "Internal Server Error" (by decide)

/-- C7 (counterexample): at the valid, non-empty title `"$data"` with a
non-empty data mapping, the third replacement substitutes the data block
into the title's occurrence of `$data`, and the rendered body's
data-segment slot keeps the literal `$data`: the data segment is not the
fixed data block, refuting the claim as stated. -/
theorem c7_counterexample :
    renderDiscordContent "$data" "M" (discordDataStr (.obj [("k", Json.str "v")]))
      = "**" ++ ("data:```\n\n" ++ jsonStringify (Json.obj [("k", Json.str "v")]) ++ "```\n")
          ++ "**\n\nmessage:```\n\nM```\n$data\n" ∧
    renderDiscordContent "$data" "M" (discordDataStr (.obj [("k", Json.str "v")]))
      ≠ slotwiseRender "$data" "M" (discordDataStr (.obj [("k", Json.str "v")])) := by
  constructor
  · decide
  · decide

/-- C7 (amended): for titles and messages free of the template placeholders
and of the JavaScript replacement patterns, and a data mapping whose
serialized block is free of replacement patterns: a non-empty mapping makes
the dispatched body's data segment the fixed data block around the JSON
serialization of the mapping, while an empty or omitted mapping leaves the
data segment empty. -/
theorem c7_data_segment (u t m : String) (hu : u ≠ "") (ht : t ≠ "") (hm : m ≠ "")
    (h1 : strContains t "$message" = false) (h2 : strContains t "$data" = false)
    (h3 : strContains m "$data" = false)
    (h4 : strNoDollarSpecials t = true) (h5 : strNoDollarSpecials m = true)
    (entries : List (String × Json)) (hne : entries ≠ [])
    (h6 : strNoDollarSpecials
      ("data:```\n\n" ++ jsonStringify (Json.obj entries) ++ "```\n") = true) :
    discordDataStr (.obj entries)
      = "data:```\n\n" ++ jsonStringify (Json.obj entries) ++ "```\n" ∧
    (AlertNow.make "discord" u).send (.vstr t) (.vstr m) (.obj entries)
      = ([], [{ url := u, method := "POST", contentType := "application/json",
                body := jsonStringify (Json.obj [("content",
                  Json.str (slotwiseRender t m
                    ("data:```\n\n" ++ jsonStringify (Json.obj entries) ++ "```\n")))]) }]) ∧
    (AlertNow.make "discord" u).send (.vstr t) (.vstr m) (.obj [])
      = ([], [{ url := u, method := "POST", contentType := "application/json",
                body := jsonStringify (Json.obj [("content",
                  Json.str (slotwiseRender t m ""))]) }]) ∧
    (AlertNow.make "discord" u).send (.vstr t) (.vstr m) DataArg.undef
      = ([], [{ url := u, method := "POST", contentType := "application/json",
                body := jsonStringify (Json.obj [("content",
                  Json.str (slotwiseRender t m ""))]) }]) := by
  have hds : discordDataStr (.obj entries)
      = "data:```\n\n" ++ jsonStringify (Json.obj entries) ++ "```\n" := by
    simp only [discordDataStr]
    rw [if_pos (List.length_pos.mpr hne)]
  refine ⟨hds, ?_, ?_, ?_⟩
  · rw [send_discord_eq u t m hu ht hm (.obj entries)]
    simp only [normalizeData]
    unfold mkDiscordRequest
    rw [hds, render_eq_slotwise t m _ h1 h2 h3 h4 h5 h6]
  · rw [send_discord_eq u t m hu ht hm (.obj [])]
    simp only [normalizeData]
    unfold mkDiscordRequest
    rw [show discordDataStr (DataArg.obj []) = "" from rfl,
      render_eq_slotwise t m "" h1 h2 h3 h4 h5 (by decide)]
  · rw [send_discord_eq u t m hu ht hm DataArg.undef]
    simp only [normalizeData]
    unfold mkDiscordRequest
    rw [show discordDataStr (DataArg.obj []) = "" from rfl,
      render_eq_slotwise t m "" h1 h2 h3 h4 h5 (by decide)]

/-- Witness for C7 (amended) at a one-entry mapping. -/
theorem c7_witness :
    (AlertNow.make "discord" "https://discord.example/webhook").send
        (.vstr "T") (.vstr "M") (.obj [("k", Json.str "v")])
      = ([], [{ url := "https://discord.example/webhook", method := "POST",
                contentType := "application/json",
                body := jsonStringify (Json.obj [("content",
                  Json.str (slotwiseRender "T" "M"
                    ("data:```\n\n" ++ jsonStringify (Json.obj [("k", Json.str "v")])
                      ++ "```\n")))]) }]) :=
  (c7_data_segment "https://discord.example/webhook" "T" "M"
    (by decide) (by decide) (by decide) (by decide) (by decide) (by decide)
    (by decide) (by decide) [("k", Json.str "v")] (by simp) (by decide)).2.1

/-- C9 (counterexample): for a title containing `$message` and the message
`"$message"` itself, the sequentially rendered content happens to coincide
with independent slot-wise substitution, so the claim's final "always
differs" clause fails in this degenerate case. -/
theorem c9_counterexample :
    strContains "a$message" "$message" = true ∧
    renderDiscordContent "a$message" "$message" ""
      = slotwiseRender "a$message" "$message" "" := by
  constructor
  · decide
  · decide

/-- C9 (amended): rendering is three sequential first-occurrence
replacements, so for expansion-free titles, messages and data segments
(no dollar-dollar, dollar-ampersand, dollar-backquote or
dollar-single-quote replacement patterns): (i) for every title containing
`$message`, the message is substituted into that occurrence inside the
title and the template's own placeholder survives; (ii) for every title
containing `$data` (and free of `$message`), the data segment is
substituted into the title's occurrence and the template's `$data`
survives; and (iii) the rendered content can therefore differ from
independent slot-wise substitution, as at the title `"alert $message"`
with message `"M"` (though not in the degenerate case of the
counterexample). -/
theorem c9_sequential_replacement :
    (∀ t m : String, strContains t "$message" = true → strNoDollarSpecials t = true →
      strNoDollarSpecials m = true →
      jsReplace (jsReplace DEF_TEMPLATE "$title" t) "$message" m
        = "**" ++ (jsReplace t "$message" m
            ++ ("**\n\nmessage:```\n\n" ++ ("$message" ++ "```\n$data\n")))) ∧
    (∀ t m ds : String, strContains t "$message" = false → strContains t "$data" = true →
      strNoDollarSpecials t = true → strNoDollarSpecials m = true →
      strNoDollarSpecials ds = true →
      renderDiscordContent t m ds
        = "**" ++ (jsReplace t "$data" ds
            ++ ("**\n\nmessage:```\n\n" ++ (m ++ "```\n$data\n")))) ∧
    renderDiscordContent "alert $message" "M" "" ≠ slotwiseRender "alert $message" "M" "" := by
  refine ⟨?_, ?_, by decide⟩
  · intro t m h hts hms
    rw [discord_render_title_step t hts, discord_render_message_step_sub t m h hms]
  · intro t m ds h1 hd hts hms hds
    exact discord_render_data_in_title t m ds h1 hd hts hms hds

/-- Witness for C9 (amended) at a concrete placeholder-bearing title. -/
theorem c9_witness :
    jsReplace (jsReplace DEF_TEMPLATE "$title" "err $message!") "$message" "M"
      = "**" ++ (jsReplace "err $message!" "$message" "M"
          ++ ("**\n\nmessage:```\n\n" ++ ("$message" ++ "```\n$data\n"))) :=
  c9_sequential_replacement.1 "err $message!" "M" (by decide) (by decide) (by decide)

/-- C10: passing `data` as explicit `null` reports no error and dispatches
exactly as an empty data mapping does, with an empty data segment. -/
theorem c10_null_data (u t m : String) (hu : u ≠ "") (ht : t ≠ "") (hm : m ≠ "") :
    (AlertNow.make "discord" u).send (.vstr t) (.vstr m) DataArg.null
      = ([], [{ url := u, method := "POST", contentType := "application/json",
                body := jsonStringify (Json.obj [("content",
                  Json.str (renderDiscordContent t m ""))]) }]) ∧
    (AlertNow.make "discord" u).send (.vstr t) (.vstr m) DataArg.null
      = (AlertNow.make "discord" u).send (.vstr t) (.vstr m) (.obj []) := by
  constructor
  · rw [send_discord_eq u t m hu ht hm DataArg.null]
    simp only [normalizeData]
    unfold mkDiscordRequest
    rw [show discordDataStr DataArg.null = "" from rfl]
  · rw [send_discord_eq u t m hu ht hm DataArg.null,
      send_discord_eq u t m hu ht hm (.obj [])]
    rfl

/-- Witness for C10 at concrete inputs. -/
theorem c10_witness :
    (AlertNow.make "discord" "https://discord.example/webhook").send
        (.vstr "T") (.vstr "M") DataArg.null
      = (AlertNow.make "discord" "https://discord.example/webhook").send
          (.vstr "T") (.vstr "M") (.obj []) :=
  (c10_null_data "https://discord.example/webhook" "T" "M"
    (by decide) (by decide) (by decide)).2

/-- A valid platform identifier passes both `setDriver` guards and is
stored lower-cased (hence as exactly `"discord"`). -/
theorem setDriver_ok_of_valid (b : AlertNowBuilder) (v : JSVal)
    (hv : validPlatform v = true) :
    b.setDriver v = .ok { b with driver := some "discord" } := by
  have hv' : (v.truthy = true ∧ v.isString = true) ∧ jsToLower v.asString = "discord" := by
    simpa [validPlatform, Bool.and_eq_true] using hv
  unfold AlertNowBuilder.setDriver
  rw [if_neg (by simp [hv'.1.1, hv'.1.2]), if_neg (by simp [hv'.2]), hv'.2]

/-- C4: (i) every valid platform identifier and non-empty endpoint make the
fluent chain `setDriver → setWebhook → build` succeed with a sender;
(ii) on builders reachable through the API, `build` fails exactly when the
driver or the webhook URL is unset; (iii) `build` is deterministic, so
repeated calls yield equal senders; and (iv) every built sender carries
exactly the builder's configuration values. -/
theorem c4_builder_finalize :
    (∀ (p : JSVal) (e : String), validPlatform p = true → e ≠ "" →
      ∃ a : AlertNow, newAlertNowBuilder.chainBuild p (.vstr e) = .ok a) ∧
    (∀ b : AlertNowBuilder, ReachableBuilder b →
      ((∃ msg, b.build = .error msg) ↔ (b.driver = none ∨ b.webhookUrl = none))) ∧
    (∀ (b : AlertNowBuilder) (a₁ a₂ : AlertNow),
      b.build = .ok a₁ → b.build = .ok a₂ → a₁ = a₂) ∧
    (∀ (b : AlertNowBuilder) (a : AlertNow), b.build = .ok a →
      a.driver = b.driver ∧ a.webhookUrl = b.webhookUrl) := by
  refine ⟨?_, ?_, ?_, ?_⟩
  · intro p e hp he
    have hw : AlertNowBuilder.setWebhook { newAlertNowBuilder with driver := some "discord" }
        (.vstr e) = .ok ⟨some "discord", some e⟩ := by
      unfold AlertNowBuilder.setWebhook
      rw [if_neg (by simp [JSVal.truthy, JSVal.isString, he])]
      rfl
    refine ⟨AlertNow.make "discord" e, ?_⟩
    simp [AlertNowBuilder.chainBuild, setDriver_ok_of_valid newAlertNowBuilder p hp, hw,
      AlertNowBuilder.build, jsStrOptTruthy, he, AlertNow.make]
  · intro b hr
    have inv := reachable_builder_fields hr
    constructor
    · rintro ⟨msg, hmsg⟩
      unfold AlertNowBuilder.build at hmsg
      split at hmsg
      · rename_i hg1
        left
        rcases inv.1 with h | h
        · exact h
        · rw [h] at hg1
          simp [jsStrOptTruthy] at hg1
      · split at hmsg
        · rename_i hg1 hg2
          right
          rcases inv.2 with h | ⟨w, hw, h⟩
          · exact h
          · rw [h] at hg2
            simp [jsStrOptTruthy, hw] at hg2
        · exact absurd hmsg (by simp)
    · intro h
      rcases h with h | h
      · unfold AlertNowBuilder.build
        rw [if_pos (by simp [h, jsStrOptTruthy])]
        exact ⟨_, rfl⟩
      · unfold AlertNowBuilder.build
        by_cases hd : (!jsStrOptTruthy b.driver) = true
        · rw [if_pos hd]
          exact ⟨_, rfl⟩
        · rw [if_neg hd, if_pos (by simp [h, jsStrOptTruthy])]
          exact ⟨_, rfl⟩
  · intro b a₁ a₂ h1 h2
    rw [h1] at h2
    injection h2
  · intro b a h
    obtain ⟨⟨dr, hdr, hbd, had⟩, ⟨w, hw, hbw, haw⟩⟩ := build_ok_fields h
    exact ⟨by rw [had, hbd], by rw [haw, hbw]⟩

/-- Witness for C4 at the canonical configuration. -/
theorem c4_witness :
    ∃ a : AlertNow, newAlertNowBuilder.chainBuild (.vstr "discord")
      (.vstr "https://discord.example/webhook") = .ok a :=
  c4_builder_finalize.1 (.vstr "discord") "https://discord.example/webhook"
    (by decide) (by decide)

/-- C5: every invalid platform argument (falsy, not a string, or not
lower-casing to `"discord"`) makes `setDriver` throw a configuration
error, and the builder state the caller observes is unchanged (both throws
precede the field assignment). -/
theorem c5_invalid_platform (b : AlertNowBuilder) (v : JSVal)
    (h : (v.truthy && v.isString) = false ∨ jsToLower v.asString ≠ "discord") :
    (∃ msg, b.setDriver v = .error msg) ∧ b.setDriverState v = b := by
  have herr : ∃ msg, b.setDriver v = .error msg := by
    unfold AlertNowBuilder.setDriver
    by_cases hg : (!v.truthy || !v.isString) = true
    · rw [if_pos hg]
      exact ⟨_, rfl⟩
    · have hv : v.truthy = true ∧ v.isString = true := by
        simpa [not_or] using hg
      have hne : jsToLower v.asString ≠ "discord" := by
        rcases h with h | h
        · exact absurd h (by simp [hv.1, hv.2])
        · exact h
      rw [if_neg hg, if_pos hne]
      exact ⟨_, rfl⟩
  obtain ⟨msg, hmsg⟩ := herr
  refine ⟨⟨msg, hmsg⟩, ?_⟩
  unfold AlertNowBuilder.setDriverState
  rw [hmsg]

/-- Witness for C5 at the unsupported platform `"slack"`. -/
theorem c5_witness :
    (∃ msg, newAlertNowBuilder.setDriver (.vstr "slack") = .error msg) ∧
    newAlertNowBuilder.setDriverState (.vstr "slack") = newAlertNowBuilder :=
  c5_invalid_platform newAlertNowBuilder (.vstr "slack") (Or.inr (by decide))

/-- C6: `setPlatform` is case-insensitive and normalizes to lower case:
every accepted identifier is stored as exactly `"discord"`, so any two
accepted identifiers leave the builder in the same configuration and the
senders later finalized from either are equal. -/
theorem c6_case_insensitive :
    (∀ (b : AlertNowBuilder) (v : JSVal), validPlatform v = true →
      b.setDriver v = .ok { b with driver := some "discord" }) ∧
    (∀ b : AlertNowBuilder, b.setDriver (.vstr "DISCORD") = b.setDriver (.vstr "discord")) ∧
    (∀ (b : AlertNowBuilder) (v₁ v₂ e : JSVal), validPlatform v₁ = true →
      validPlatform v₂ = true → b.chainBuild v₁ e = b.chainBuild v₂ e) := by
  refine ⟨setDriver_ok_of_valid, ?_, ?_⟩
  · intro b
    rw [setDriver_ok_of_valid b (.vstr "DISCORD") (by decide),
      setDriver_ok_of_valid b (.vstr "discord") (by decide)]
  · intro b v₁ v₂ e h₁ h₂
    unfold AlertNowBuilder.chainBuild
    rw [setDriver_ok_of_valid b v₁ h₁, setDriver_ok_of_valid b v₂ h₂]

/-- Witness for C6 at the upper-case identifier. -/
theorem c6_witness :
    newAlertNowBuilder.setDriver (.vstr "DISCORD")
      = .ok { newAlertNowBuilder with driver := some "discord" } :=
  c6_case_insensitive.1 newAlertNowBuilder (.vstr "DISCORD") (by decide)

/-- C8: every sender finalized from an API-reachable builder has driver
exactly `"discord"` and a non-empty webhook URL, so the "not properly
configured" branch of `send` is unreachable for it, and every call with a
non-empty title and message reaches the dispatch step, issuing exactly one
request and reporting no error. -/
theorem c8_built_sender_dispatches (b : AlertNowBuilder) (a : AlertNow)
    (hr : ReachableBuilder b) (hb : b.build = .ok a) :
    a.driver = some "discord" ∧ (∃ u, u ≠ "" ∧ a.webhookUrl = some u) ∧
    (∀ (t m : String) (d : DataArg), t ≠ "" → m ≠ "" →
      ∃ req : Request, a.send (.vstr t) (.vstr m) d = ([], [req])) := by
  have inv := reachable_builder_fields hr
  obtain ⟨⟨dr, hdr, hbd, had⟩, ⟨u, hu, hbu, hau⟩⟩ := build_ok_fields hb
  have hdisc : dr = "discord" := by
    rcases inv.1 with h | h
    · rw [h] at hbd
      simp at hbd
    · rw [h] at hbd
      injection hbd with h'
      exact h'.symm
  have ha : a = AlertNow.make "discord" u := by
    cases a
    simp_all [AlertNow.make]
  refine ⟨by rw [had, hdisc], ⟨u, hu, hau⟩, ?_⟩
  intro t m d ht hm
  exact ⟨mkDiscordRequest u t m (normalizeData d),
    by rw [ha, send_discord_eq u t m hu ht hm d]⟩

/-- Witness for C8 along a concrete builder run. -/
theorem c8_witness :
    ∃ req : Request, (AlertNow.make "discord" "https://discord.example/webhook").send
      (.vstr "T") (.vstr "M") DataArg.undef = ([], [req]) :=
  (c8_built_sender_dispatches ⟨some "discord", some "https://discord.example/webhook"⟩
    (AlertNow.make "discord" "https://discord.example/webhook")
    (ReachableBuilder.webhookStep ⟨some "discord", none⟩
      ⟨some "discord", some "https://discord.example/webhook"⟩
      (.vstr "https://discord.example/webhook")
      (ReachableBuilder.driverStep newAlertNowBuilder ⟨some "discord", none⟩
        (.vstr "discord") ReachableBuilder.init rfl)
      rfl)
    rfl).2.2 "T" "M" DataArg.undef (by decide) (by decide)
